import Mathlib

/-!
Verification of the `od_dbUpdater` sync service (`src/app.py`).

The service is a single Flask endpoint `POST /sync-record`: it validates the
JSON body, fetches one `TR1__Opportunity_Discussed__c` record from Salesforce,
maps nine fields to columns of the `od_data` PostgreSQL table, runs one
parameterized UPDATE keyed on `od_id`, and reports the outcome as JSON.

The embedding below mirrors `src/app.py` definition by definition:
Python values (`PyVal`) with Python truthiness and `dict.get` semantics,
the SOQL query string (`soql_query`), the field mapping and parameter tuple
(`values_to_update`), the database layer (`update_postgres_record`) with an
explicit trace of connection/rollback/close events and an explicit model of
the UPDATE's effect on the `od_data` table (`runUpdate`), and the HTTP
handler (`sync_record_endpoint`).
-/

/-- A Python value as it appears in this program: `None`, a bool, an int,
a string, or a dict with string keys (the shape of a parsed JSON object or
of a Salesforce record).  `PyVal.none` is Python's `None`. -/
inductive PyVal where
  | none : PyVal
  | bool : Bool → PyVal
  | int : Int → PyVal
  | str : String → PyVal
  | dict : List (String × PyVal) → PyVal
deriving Repr

/-- Python truthiness (`bool(v)`): `None` and `False` are falsy, `0` is
falsy, the empty string is falsy, the empty dict is falsy. -/
def PyVal.truthy : PyVal → Bool
  | .none => false
  | .bool b => b
  | .int n => n != 0
  | .str s => s != ""
  | .dict fs => !fs.isEmpty

/-- Python `v.get(k, d)` for the dicts handled by this program: look the key
up in the dict, returning the default when the key is absent.  (In Python
`.get` on a non-dict raises; every `.get` in `src/app.py` is applied to a
dict — the request body object or a Salesforce record — so the non-dict
branch returns the default and is unreachable under the theorems below.) -/
def PyVal.getD (v : PyVal) (k : String) (d : PyVal) : PyVal :=
  match v with
  | .dict fs =>
    match fs.find? (fun p => p.1 == k) with
    | some p => p.2
    | Option.none => d
  | _ => d

/-- Python `v.get(k)`, defaulting to `None`. -/
def PyVal.get (v : PyVal) (k : String) : PyVal := v.getD k PyVal.none

/-- The SOQL query built by `fetch_salesforce_data` (src/app.py lines 62-76):
an f-string with the external record ID interpolated directly into the WHERE
clause.  Its literal parts are kept verbatim from the source. -/
def soql_query (sf_opportunity_discussed_id : String) : String :=
  "\n        SELECT\n            Id,\n            TR1__Job__r.Id,\n            TR1__Candidate__r.Id,\n            TR1__Candidate__r.AccountId,\n            TR1__Candidate__r.Candidate_s_Resume_TXT__c,\n            TR1__Candidate__r.FirstName,\n            Screening_Transcript__c,\n            Internal_Interview_Transcript__c,\n            X1st_Interview_Transcript__c            \n        FROM\n            TR1__Opportunity_Discussed__c\n        WHERE Id = '" ++ sf_opportunity_discussed_id ++ "'\n    "

/-- The fixed text before the interpolated ID in `soql_query`. -/
def soqlPrefix : String :=
  "\n        SELECT\n            Id,\n            TR1__Job__r.Id,\n            TR1__Candidate__r.Id,\n            TR1__Candidate__r.AccountId,\n            TR1__Candidate__r.Candidate_s_Resume_TXT__c,\n            TR1__Candidate__r.FirstName,\n            Screening_Transcript__c,\n            Internal_Interview_Transcript__c,\n            X1st_Interview_Transcript__c            \n        FROM\n            TR1__Opportunity_Discussed__c\n        WHERE Id = '"

/-- The fixed text after the interpolated ID in `soql_query`. -/
def soqlSuffix : String := "'\n    "

/-- The query text before its WHERE clause (so `soqlPrefix` splits as
`soqlBeforeWhere ++ "WHERE Id = '"`). -/
def soqlBeforeWhere : String :=
  "\n        SELECT\n            Id,\n            TR1__Job__r.Id,\n            TR1__Candidate__r.Id,\n            TR1__Candidate__r.AccountId,\n            TR1__Candidate__r.Candidate_s_Resume_TXT__c,\n            TR1__Candidate__r.FirstName,\n            Screening_Transcript__c,\n            Internal_Interview_Transcript__c,\n            X1st_Interview_Transcript__c            \n        FROM\n            TR1__Opportunity_Discussed__c\n        "

/-- True when `pat` is a prefix of `s` (on character lists). -/
def charsHasPrefix : List Char → List Char → Bool
  | _, [] => true
  | [], _ :: _ => false
  | c :: cs, p :: ps => c == p && charsHasPrefix cs ps

/-- Number of positions of `s` at which `pat` starts. -/
def countSubChars : List Char → List Char → Nat
  | [], _ => 0
  | c :: cs, pat =>
    (if charsHasPrefix (c :: cs) pat then 1 else 0) + countSubChars cs pat

/-- Number of occurrences of `pat` in the string `s`. -/
def countSub (s pat : String) : Nat := countSubChars s.data pat.data

/-- True when `pat` occurs somewhere in `s`. -/
def hasSub (s pat : String) : Bool := countSub s pat != 0

/-- The UPDATE statement run by `update_postgres_record`
(src/app.py lines 119-132), verbatim. -/
def update_query : String :=
  "\n        UPDATE od_data SET\n            job_id = %s,\n            candidate_id = %s,\n            account_id = %s,\n            resume_txt = %s,\n            firstname = %s,\n            screening_transcript_c = %s,\n            internal_interview_transcript_c = %s,\n            x1st_interview_transcript_c = %s,\n            x2nd_interview_transcript_c = %s,\n            updated_at = CURRENT_TIMESTAMP\n        WHERE od_id = %s \n    "

/-- The ten positional parameters passed to the UPDATE (`values_to_update`
tuple in src/app.py lines 135-146), in source order: nine mapped columns then
the WHERE-clause value. -/
structure UpdateParams where
  job_id : PyVal
  candidate_id : PyVal
  account_id : PyVal
  resume_txt : PyVal
  firstname : PyVal
  screening_transcript_c : PyVal
  internal_interview_transcript_c : PyVal
  x1st_interview_transcript_c : PyVal
  x2nd_interview_transcript_c : PyVal
  where_od_id : PyVal
deriving Repr

/-- The positional tuple as a list, in the order of the source tuple. -/
def UpdateParams.toList (p : UpdateParams) : List PyVal :=
  [p.job_id, p.candidate_id, p.account_id, p.resume_txt, p.firstname,
   p.screening_transcript_c, p.internal_interview_transcript_c,
   p.x1st_interview_transcript_c, p.x2nd_interview_transcript_c,
   p.where_od_id]

/-- The field mapping of `update_postgres_record` (src/app.py lines 105-146):
each line mirrors the corresponding Python assignment, including the guard
`... if sf_data.get(rel) else None` on the nested relations and the exact
(lower-case) keys used for the four transcript reads. -/
def values_to_update (salesforce_opp_discussed_id : PyVal) (sf_data : PyVal) :
    UpdateParams :=
  let job_id := if (sf_data.get "TR1__Job__r").truthy
    then (sf_data.getD "TR1__Job__r" (PyVal.dict [])).get "Id" else PyVal.none
  let candidate_id := if (sf_data.get "TR1__Candidate__r").truthy
    then (sf_data.getD "TR1__Candidate__r" (PyVal.dict [])).get "Id" else PyVal.none
  let account_id := if (sf_data.get "TR1__Candidate__r").truthy
    then (sf_data.getD "TR1__Candidate__r" (PyVal.dict [])).get "AccountId" else PyVal.none
  let resume_txt := if (sf_data.get "TR1__Candidate__r").truthy
    then (sf_data.getD "TR1__Candidate__r" (PyVal.dict [])).get "Candidate_s_Resume_TXT__c" else PyVal.none
  let firstname := if (sf_data.get "TR1__Candidate__r").truthy
    then (sf_data.getD "TR1__Candidate__r" (PyVal.dict [])).get "FirstName" else PyVal.none
  let screening_transcript_c := sf_data.get "screening_transcript_c"
  let internal_interview_transcript_c := sf_data.get "internal_interview_transcript_c"
  let x1st_interview_transcript_c := sf_data.get "x1st_interview_transcript_c"
  let x2nd_interview_transcript_c := sf_data.get "x2nd_interview_transcript_c"
  { job_id := job_id
    candidate_id := candidate_id
    account_id := account_id
    resume_txt := resume_txt
    firstname := firstname
    screening_transcript_c := screening_transcript_c
    internal_interview_transcript_c := internal_interview_transcript_c
    x1st_interview_transcript_c := x1st_interview_transcript_c
    x2nd_interview_transcript_c := x2nd_interview_transcript_c
    where_od_id := salesforce_opp_discussed_id }

/-- Python `str(v)` as used by the f-strings of `src/app.py` when building
log and response messages.  In every theorem below the interpolated value is
a string (the external ID), for which Python's `str` is the identity; the
other scalar cases follow Python, and the dict case (never reached by any
theorem in this file, since an ID that is a dict never produces a message
that a claim inspects) is abbreviated. -/
def PyVal.fstr : PyVal → String
  | .none => "None"
  | .bool b => bif b then "True" else "False"
  | .int n => toString n
  | .str s => s
  | .dict _ => "\x7b...\x7d"

/-- Outcome of the Salesforce session and query, as seen by
`fetch_salesforce_data` (src/app.py lines 41-95).  This is the oracle for the
remote service: authentication may fail, session construction may raise some
other error, the query may signal `SalesforceResourceNotFound`, the query may
raise some other exception, or the query returns a result with a `totalSize`
and a `records` list. -/
inductive SfOutcome where
  | authFail : SfOutcome
  | initError : SfOutcome
  | resourceNotFound : SfOutcome
  | queryError : SfOutcome
  | queryOk : Nat → List PyVal → SfOutcome
deriving Repr

/-- What `fetch_salesforce_data` hands back to the endpoint: a value
(`None` or the first record) or a propagated exception, tagged with how the
endpoint's `except` clauses classify it
(`SalesforceAuthenticationFailed` vs. anything else). -/
inductive FetchOutput where
  | raisedAuth : FetchOutput
  | raisedOther : FetchOutput
  | ok : PyVal → FetchOutput
deriving Repr

/-- `fetch_salesforce_data` (src/app.py lines 41-95): authentication and
session errors propagate; on a query result, `totalSize > 0` returns
`records[0]` (an out-of-range index, `totalSize > 0` with an empty list,
raises `IndexError`, caught by the bare `except` and re-raised);
`totalSize = 0` and `SalesforceResourceNotFound` both return `None`; any
other query error propagates. -/
def fetch_salesforce_data : SfOutcome → FetchOutput
  | .authFail => .raisedAuth
  | .initError => .raisedOther
  | .resourceNotFound => .ok PyVal.none
  | .queryError => .raisedOther
  | .queryOk totalSize records =>
    if totalSize > 0 then
      match records with
      | r :: _ => .ok r
      | [] => .raisedOther
    else
      .ok PyVal.none

/-- One row of the `od_data` table: the `od_id` key column (text), the nine
columns written by the UPDATE, and the `updated_at` timestamp set to
`CURRENT_TIMESTAMP`. -/
structure Row where
  od_id : String
  job_id : PyVal
  candidate_id : PyVal
  account_id : PyVal
  resume_txt : PyVal
  firstname : PyVal
  screening_transcript_c : PyVal
  internal_interview_transcript_c : PyVal
  x1st_interview_transcript_c : PyVal
  x2nd_interview_transcript_c : PyVal
  updated_at : Nat
deriving Repr

/-- The row's nine data columns (everything the UPDATE's SET clause writes
except the server-side `updated_at`), in column order. -/
def Row.dataCols (r : Row) : List PyVal :=
  [r.job_id, r.candidate_id, r.account_id, r.resume_txt, r.firstname,
   r.screening_transcript_c, r.internal_interview_transcript_c,
   r.x1st_interview_transcript_c, r.x2nd_interview_transcript_c]

/-- SQL equality between the `%s` parameter of the WHERE clause and the text
`od_id` column: the parameter matches exactly when it is a string equal to
the column value (a non-string parameter never equals a text column). -/
def sqlMatch (param : PyVal) (col : String) : Bool :=
  match param with
  | .str s => s == col
  | _ => false

/-- The effect of `cur.execute(update_query, values_to_update)` on one row:
rows whose `od_id` equals the WHERE parameter get the nine columns
overwritten and `updated_at` set to the current timestamp. -/
def applyUpdate (p : UpdateParams) (now : Nat) (r : Row) : Row :=
  { r with
    job_id := p.job_id
    candidate_id := p.candidate_id
    account_id := p.account_id
    resume_txt := p.resume_txt
    firstname := p.firstname
    screening_transcript_c := p.screening_transcript_c
    internal_interview_transcript_c := p.internal_interview_transcript_c
    x1st_interview_transcript_c := p.x1st_interview_transcript_c
    x2nd_interview_transcript_c := p.x2nd_interview_transcript_c
    updated_at := now }

/-- One row as the UPDATE leaves it: overwritten when the WHERE clause
matches it, untouched otherwise. -/
def updRow (p : UpdateParams) (now : Nat) (r : Row) : Row :=
  if sqlMatch p.where_od_id r.od_id then applyUpdate p now r else r

/-- The UPDATE statement against a table state: the new table and
`cur.rowcount`, the number of rows the WHERE clause matched. -/
def runUpdate (table : List Row) (p : UpdateParams) (now : Nat) :
    List Row × Nat :=
  (table.map (updRow p now),
   (table.filter (fun r => sqlMatch p.where_od_id r.od_id)).length)

/-- The database world the updater runs against: either the connection or
the statement or the commit fails with a `psycopg2.Error`, or the database is
healthy and holds the `od_data` table together with the value
`CURRENT_TIMESTAMP` will take during this request's transaction. -/
inductive DbWorld where
  | connectFail : DbWorld
  | execFail : List Row → DbWorld
  | commitFail : List Row → DbWorld
  | healthy : List Row → Nat → DbWorld
deriving Repr

/-- The table held by a database world (unchanged through failed worlds). -/
def DbWorld.table : DbWorld → List Row
  | .connectFail => []
  | .execFail t => t
  | .commitFail t => t
  | .healthy t _ => t

/-- Trace of one run of `update_postgres_record`: which resource events
happened (connection opened, `cur.execute` called and with which parameters,
commit, rollback, close) and the outcome — `some n` is a normal return of
`updated_rows = n`, `none` means a `psycopg2.Error` was re-raised to the
caller. -/
structure DbTrace where
  opened : Bool
  executeCalled : Bool
  execParams : Option UpdateParams
  committed : Bool
  rolledBack : Bool
  closed : Bool
  result : Option Nat
deriving Repr

/-- `update_postgres_record` (src/app.py lines 98-166).  The mapping is
computed first; then, following the `try/except/finally`:
connection failure re-raises with `conn` still `None` (no rollback, no
close); a failure of `cur.execute` or `conn.commit` rolls the open
transaction back, closes the connection and re-raises; on success the
transaction is committed, the connection closed and the row count returned.
The returned `DbWorld` reflects the table after the call (rollback leaves
the table unchanged; only a committed UPDATE changes it). -/
def update_postgres_record (salesforce_opp_discussed_id : PyVal)
    (sf_data : PyVal) (w : DbWorld) : DbTrace × DbWorld :=
  let values := values_to_update salesforce_opp_discussed_id sf_data
  match w with
  | .connectFail =>
    ({ opened := false, executeCalled := false, execParams := Option.none,
       committed := false, rolledBack := false, closed := false,
       result := Option.none }, .connectFail)
  | .execFail t =>
    ({ opened := true, executeCalled := true, execParams := some values,
       committed := false, rolledBack := true, closed := true,
       result := Option.none }, .execFail t)
  | .commitFail t =>
    ({ opened := true, executeCalled := true, execParams := some values,
       committed := false, rolledBack := true, closed := true,
       result := Option.none }, .commitFail t)
  | .healthy t now =>
    let updated := runUpdate t values now
    ({ opened := true, executeCalled := true, execParams := some values,
       committed := true, rolledBack := false, closed := true,
       result := some updated.2 }, .healthy updated.1 now)

/-- An HTTP response: status code and the `jsonify`-ed body, keys in source
order. -/
structure Response where
  status : Nat
  body : List (String × PyVal)
deriving Repr

/-- Look a key up in a response body. -/
def bodyLookup (r : Response) (k : String) : Option PyVal :=
  (r.body.find? (fun p => p.1 == k)).map (fun p => p.2)

/-- The inbound request as the handler sees it: either not JSON
(`request.is_json` false), or a parsed JSON object body (the association
list of its fields).  All claims quantify over object bodies, the only shape
for which the handler's `data.get` is defined. -/
inductive ReqBody where
  | notJson : ReqBody
  | json : List (String × PyVal) → ReqBody

/-- `data.get(k)` on the parsed JSON object. -/
def jsonGet (data : List (String × PyVal)) (k : String) : PyVal :=
  match data.find? (fun p => p.1 == k) with
  | some p => p.2
  | Option.none => PyVal.none

/-- Trace of one request through `sync_record_endpoint`: the HTTP response,
whether `fetch_salesforce_data` was invoked, and the trace of
`update_postgres_record` when it was invoked (`none` when the database layer
was never entered). -/
structure EndpointTrace where
  response : Response
  sfCalled : Bool
  db : Option DbTrace
deriving Repr

/-- `sync_record_endpoint` (src/app.py lines 169-215), with the Salesforce
oracle and the database world as explicit inputs; returns the request trace
and the database world after the request.  Mirrors the source line by line:
non-JSON body → 400; falsy `data.get('od_id')` → 400; fetch exceptions map
to the 500 bodies of the `except` clauses; a falsy fetched record → 404;
then the update runs, a re-raised `psycopg2.Error` → 500, a positive row
count → 200, a zero row count → 404. -/
def sync_record_endpoint (req : ReqBody) (sf : SfOutcome) (w : DbWorld) :
    EndpointTrace × DbWorld :=
  match req with
  | .notJson =>
    (⟨⟨400, [("error", PyVal.str "Request must be JSON")]⟩, false, Option.none⟩, w)
  | .json data =>
    let salesforce_opp_discussed_id := jsonGet data "od_id"
    if !salesforce_opp_discussed_id.truthy then
      (⟨⟨400, [("error", PyVal.str "Missing 'od_id' in request body")]⟩,
        false, Option.none⟩, w)
    else
      match fetch_salesforce_data sf with
      | .raisedAuth =>
        (⟨⟨500, [("error", PyVal.str "Salesforce authentication failed. Check credentials.")]⟩,
          true, Option.none⟩, w)
      | .raisedOther =>
        (⟨⟨500, [("error", PyVal.str "An unexpected error occurred: ...")]⟩,
          true, Option.none⟩, w)
      | .ok sf_record_data =>
        if !sf_record_data.truthy then
          (⟨⟨404, [("message", PyVal.str
              ("No data found in Salesforce for ID " ++ salesforce_opp_discussed_id.fstr))]⟩,
            true, Option.none⟩, w)
        else
          let stepped := update_postgres_record salesforce_opp_discussed_id sf_record_data w
          match stepped.1.result with
          | Option.none =>
            (⟨⟨500, [("error", PyVal.str "Database operation failed: ...")]⟩,
              true, some stepped.1⟩, stepped.2)
          | some updated_row_count =>
            if updated_row_count > 0 then
              (⟨⟨200,
                 [("message", PyVal.str
                     ("Successfully synchronized data for ID " ++ salesforce_opp_discussed_id.fstr)),
                  ("salesforce_data_retrieved", PyVal.bool true),
                  ("postgres_rows_updated", PyVal.int updated_row_count)]⟩,
                true, some stepped.1⟩, stepped.2)
            else
              (⟨⟨404,
                 [("message", PyVal.str
                     ("Data retrieved from Salesforce for ID " ++ salesforce_opp_discussed_id.fstr ++
                      ", but no matching record found in PostgreSQL to update.")),
                  ("salesforce_data_retrieved", PyVal.bool true),
                  ("postgres_rows_updated", PyVal.int 0)]⟩,
                true, some stepped.1⟩, stepped.2)

set_option maxRecDepth 8192

/-! ## Helper lemmas (shared) -/

/-- String concatenation is associative. -/
theorem strAppend_assoc (a b c : String) : a ++ b ++ c = a ++ (b ++ c) := by
  cases a with
  | mk da =>
    cases b with
    | mk db =>
      cases c with
      | mk dc =>
        show String.mk (da ++ db ++ dc) = String.mk (da ++ (db ++ dc))
        rw [List.append_assoc]

/-- The UPDATE never touches the `od_id` key column of a row. -/
theorem applyUpdate_od_id (p : UpdateParams) (now : Nat) (r : Row) :
    (applyUpdate p now r).od_id = r.od_id := rfl

/-- Rows written twice with the same parameters carry the same data columns
as after the first write. -/
theorem applyUpdate_dataCols_idem (p : UpdateParams) (now1 now2 : Nat) (r : Row) :
    (applyUpdate p now2 (applyUpdate p now1 r)).dataCols =
    (applyUpdate p now1 r).dataCols := rfl

/-- The per-row effect of the UPDATE preserves the `od_id` column, whichever
branch of the WHERE test is taken. -/
theorem updRow_od_id (p : UpdateParams) (now : Nat) (r : Row) :
    (updRow p now r).od_id = r.od_id := by
  unfold updRow
  by_cases h : sqlMatch p.where_od_id r.od_id = true
  · rw [if_pos h]
    exact applyUpdate_od_id p now r
  · rw [if_neg h]

/-- The UPDATE leaves the number of rows matching any WHERE value unchanged
(the WHERE column is never written). -/
theorem runUpdate_match_count (t : List Row) (p : UpdateParams) (now : Nat)
    (v : PyVal) :
    ((t.map (updRow p now)).filter (fun r => sqlMatch v r.od_id)).length =
    (t.filter (fun r => sqlMatch v r.od_id)).length := by
  induction t with
  | nil => rfl
  | cons r rs ih =>
    simp only [List.map_cons, List.filter_cons, updRow_od_id]
    by_cases h : sqlMatch v r.od_id = true
    · simp only [h, if_true, List.length_cons]
      exact congrArg Nat.succ ih
    · simp only [h, Bool.false_eq_true, if_false]
      exact ih

/-- Writing a row twice with the same UPDATE parameters gives the same
`od_id` and data columns as writing it once (only `updated_at` can differ). -/
theorem updRow_twice_strip (p : UpdateParams) (now1 now2 : Nat) (r : Row) :
    ((updRow p now2 (updRow p now1 r)).od_id,
     (updRow p now2 (updRow p now1 r)).dataCols) =
    ((updRow p now1 r).od_id, (updRow p now1 r).dataCols) := by
  unfold updRow
  by_cases h : sqlMatch p.where_od_id r.od_id = true
  · rw [if_pos h]
    rw [applyUpdate_od_id]
    rw [if_pos h]
    rfl
  · rw [if_neg h, if_neg h]

/-- Running the UPDATE a second time with the same parameters changes nothing
but the `updated_at` timestamps: the tables agree on `od_id` and the nine
data columns, row for row. -/
theorem runUpdate_twice_dataCols (t : List Row) (p : UpdateParams)
    (now1 now2 : Nat) :
    ((t.map (updRow p now1)).map (updRow p now2)).map (fun r => (r.od_id, r.dataCols)) =
    (t.map (updRow p now1)).map (fun r => (r.od_id, r.dataCols)) := by
  induction t with
  | nil => rfl
  | cons r rs ih =>
    simp only [List.map_cons]
    rw [updRow_twice_strip p now1 now2 r, ih]

/-! ## Claims -/

/-- C1.  The claim reads the spec's example: for body `{"od_id": "a0B1"}`
with an upstream record having `TR1__Job__r: null`, no `TR1__Candidate__r`,
and `Screening_Transcript__c: "hello"`, the mapped tuple should be
`(null, null, null, null, null, "hello", null, null, null, "a0B1")`.
The code does not do this: `update_postgres_record` reads the transcript
with key `screening_transcript_c` (src/app.py line 111) while the record —
keyed by the Salesforce field API names its own SOQL query selects
(src/app.py line 70) — holds the value under `Screening_Transcript__c`, so
the mapper passes `None` in the screening-transcript slot (and in the other
three transcript slots): the tuple is all nulls followed by the ID. -/
theorem sync_C1_transcript_read_as_null :
    (values_to_update (PyVal.str "a0B1")
      (PyVal.dict
        [("Id", PyVal.str "a0B1"),
         ("TR1__Job__r", PyVal.none),
         ("Screening_Transcript__c", PyVal.str "hello")])).toList =
      [PyVal.none, PyVal.none, PyVal.none, PyVal.none, PyVal.none,
       PyVal.none, PyVal.none, PyVal.none, PyVal.none, PyVal.str "a0B1"] ∧
    (values_to_update (PyVal.str "a0B1")
      (PyVal.dict
        [("Id", PyVal.str "a0B1"),
         ("TR1__Job__r", PyVal.none),
         ("Screening_Transcript__c", PyVal.str "hello")])).screening_transcript_c ≠
      PyVal.str "hello" :=
  ⟨rfl, fun h => nomatch h⟩

/-- C3: a JSON object body with no `od_id` key is answered with the 400
missing-`od_id` error; `fetch_salesforce_data` is never called, the database
layer is never entered, and the database world is untouched. -/
theorem sync_C3_missing_od_id_rejected (data : List (String × PyVal))
    (sf : SfOutcome) (w : DbWorld)
    (habsent : data.find? (fun p => p.1 == "od_id") = Option.none) :
    sync_record_endpoint (ReqBody.json data) sf w =
      (⟨⟨400, [("error", PyVal.str "Missing 'od_id' in request body")]⟩,
        false, Option.none⟩, w) := by
  simp [sync_record_endpoint, jsonGet, habsent, PyVal.truthy]

/-- Witness for C3 at the empty object body. -/
theorem sync_C3_missing_od_id_rejected_witness :
    ([] : List (String × PyVal)).find? (fun p => p.1 == "od_id") = Option.none ∧
    sync_record_endpoint (ReqBody.json []) SfOutcome.authFail DbWorld.connectFail =
      (⟨⟨400, [("error", PyVal.str "Missing 'od_id' in request body")]⟩,
        false, Option.none⟩, DbWorld.connectFail) :=
  ⟨rfl, sync_C3_missing_od_id_rejected [] SfOutcome.authFail DbWorld.connectFail rfl⟩

/-- C10: a body whose `od_id` key is present but holds a falsy value (empty
string, `null`, `0`, `false`, …) takes the same `if not salesforce_opp_discussed_id`
branch as an absent key: same 400 missing-`od_id` response, no Salesforce
call, no database activity — the result is identical to the call on a body
with no `od_id` key at all. -/
theorem sync_C10_falsy_od_id_rejected (data : List (String × PyVal))
    (v : PyVal) (sf : SfOutcome) (w : DbWorld)
    (hpresent : (data.find? (fun p => p.1 == "od_id")).map Prod.snd = some v)
    (hfalsy : v.truthy = false) :
    sync_record_endpoint (ReqBody.json data) sf w =
      (⟨⟨400, [("error", PyVal.str "Missing 'od_id' in request body")]⟩,
        false, Option.none⟩, w) ∧
    sync_record_endpoint (ReqBody.json data) sf w =
      sync_record_endpoint (ReqBody.json []) sf w := by
  have hv : jsonGet data "od_id" = v := by
    unfold jsonGet
    cases hfind : data.find? (fun p => p.1 == "od_id") with
    | none => rw [hfind] at hpresent; exact absurd hpresent (by simp)
    | some q =>
      rw [hfind] at hpresent
      simp at hpresent
      simp [hpresent]
  have h400 : sync_record_endpoint (ReqBody.json data) sf w =
      (⟨⟨400, [("error", PyVal.str "Missing 'od_id' in request body")]⟩,
        false, Option.none⟩, w) := by
    simp [sync_record_endpoint, hv, hfalsy]
  refine ⟨h400, ?_⟩
  rw [h400]
  simp [sync_record_endpoint, jsonGet, PyVal.truthy]

/-- C4: when the Salesforce query finds zero records (`totalSize = 0`) or
signals `SalesforceResourceNotFound`, the handler answers 404, the database
layer is never entered (no connection is opened, no UPDATE is executed), and
the database world after the request is exactly the one before it. -/
theorem sync_C4_upstream_not_found (data : List (String × PyVal))
    (sf : SfOutcome) (w : DbWorld)
    (hod : (jsonGet data "od_id").truthy = true)
    (hsf : sf = SfOutcome.resourceNotFound ∨
      ∃ records, sf = SfOutcome.queryOk 0 records) :
    (sync_record_endpoint (ReqBody.json data) sf w).1.response.status = 404 ∧
    (sync_record_endpoint (ReqBody.json data) sf w).1.db = Option.none ∧
    (sync_record_endpoint (ReqBody.json data) sf w).2 = w := by
  rcases hsf with h | ⟨records, h⟩ <;> subst h <;>
    simp [sync_record_endpoint, fetch_salesforce_data, hod,
      show PyVal.none.truthy = false from rfl]

/-- Witness for C4 at the body `{"od_id": "a0B1"}` and an upstream
not-found. -/
theorem sync_C4_upstream_not_found_witness :
    (jsonGet [("od_id", PyVal.str "a0B1")] "od_id").truthy = true ∧
    ((sync_record_endpoint (ReqBody.json [("od_id", PyVal.str "a0B1")])
        SfOutcome.resourceNotFound (DbWorld.healthy [] 7)).1.response.status = 404 ∧
     (sync_record_endpoint (ReqBody.json [("od_id", PyVal.str "a0B1")])
        SfOutcome.resourceNotFound (DbWorld.healthy [] 7)).1.db = Option.none ∧
     (sync_record_endpoint (ReqBody.json [("od_id", PyVal.str "a0B1")])
        SfOutcome.resourceNotFound (DbWorld.healthy [] 7)).2 = DbWorld.healthy [] 7) :=
  ⟨rfl, sync_C4_upstream_not_found [("od_id", PyVal.str "a0B1")]
    SfOutcome.resourceNotFound (DbWorld.healthy [] 7) rfl (Or.inl rfl)⟩

/-- C7 counterexample.  The claim says the query selects four transcript
fields; the query built by `fetch_salesforce_data` names exactly three
(`Screening_Transcript__c`, `Internal_Interview_Transcript__c`,
`X1st_Interview_Transcript__c`) — the second-interview field appears only in
a comment of the source (src/app.py lines 60, 77-78) and is absent from the
query text, in both spellings. -/
theorem sync_C7_counterexample :
    countSub (soql_query "a0B1") "Transcript__c" = 3 ∧
    countSub (soql_query "a0B1") "Transcript__c" ≠ 4 ∧
    hasSub (soql_query "a0B1") "X2nd" = false ∧
    hasSub (soql_query "a0B1") "x2nd" = false := by decide

/-- C7 (amended): the query is fixed-shape — a constant text with the
external record ID interpolated directly into the WHERE clause — and selects
the record's own `Id`, the nested job/candidate/account fields, and THREE
transcript fields. -/
theorem sync_C7_fixed_shape_query (id : String) :
    soql_query id = soqlBeforeWhere ++ "WHERE Id = '" ++ id ++ "'\n    " ∧
    hasSub soqlBeforeWhere "SELECT" = true ∧
    hasSub soqlBeforeWhere "Id," = true ∧
    hasSub soqlBeforeWhere "TR1__Job__r.Id" = true ∧
    hasSub soqlBeforeWhere "TR1__Candidate__r.Id" = true ∧
    hasSub soqlBeforeWhere "TR1__Candidate__r.AccountId" = true ∧
    hasSub soqlBeforeWhere "TR1__Candidate__r.Candidate_s_Resume_TXT__c" = true ∧
    hasSub soqlBeforeWhere "TR1__Candidate__r.FirstName" = true ∧
    hasSub soqlBeforeWhere "Screening_Transcript__c" = true ∧
    hasSub soqlBeforeWhere "Internal_Interview_Transcript__c" = true ∧
    hasSub soqlBeforeWhere "X1st_Interview_Transcript__c" = true ∧
    countSub soqlBeforeWhere "Transcript__c" = 3 ∧
    hasSub soqlBeforeWhere "FROM\n            TR1__Opportunity_Discussed__c" = true :=
  ⟨rfl, by decide⟩

/-- C8: in every run of `update_postgres_record`, a connection that was
opened is closed on exit (success or failure), and whenever a database error
is re-raised (`result = none`) while a connection was open, the transaction
was rolled back first.  (When the connection itself could not be opened,
`conn` is still `None`: nothing to roll back or close, and the error still
propagates.) -/
theorem sync_C8_rollback_and_close (salesforce_opp_discussed_id sf_data : PyVal)
    (w : DbWorld) :
    ((update_postgres_record salesforce_opp_discussed_id sf_data w).1.opened = true →
      (update_postgres_record salesforce_opp_discussed_id sf_data w).1.closed = true) ∧
    ((update_postgres_record salesforce_opp_discussed_id sf_data w).1.result = Option.none →
      (update_postgres_record salesforce_opp_discussed_id sf_data w).1.opened = true →
      (update_postgres_record salesforce_opp_discussed_id sf_data w).1.rolledBack = true) := by
  cases w <;> simp [update_postgres_record]

/-- Witness for C8 on a failing `cur.execute`: the connection is closed and
the transaction rolled back. -/
theorem sync_C8_rollback_and_close_witness :
    (update_postgres_record (PyVal.str "a0B1") (PyVal.dict [])
      (DbWorld.execFail [])).1.closed = true ∧
    (update_postgres_record (PyVal.str "a0B1") (PyVal.dict [])
      (DbWorld.execFail [])).1.rolledBack = true :=
  ⟨(sync_C8_rollback_and_close (PyVal.str "a0B1") (PyVal.dict [])
      (DbWorld.execFail [])).1 rfl,
   (sync_C8_rollback_and_close (PyVal.str "a0B1") (PyVal.dict [])
      (DbWorld.execFail [])).2 rfl rfl⟩

/-- Witness for C10 at the body `{"od_id": ""}`. -/
theorem sync_C10_falsy_od_id_rejected_witness :
    (([("od_id", PyVal.str "")] : List (String × PyVal)).find?
        (fun p => p.1 == "od_id")).map Prod.snd = some (PyVal.str "") ∧
    (PyVal.str "").truthy = false ∧
    sync_record_endpoint (ReqBody.json [("od_id", PyVal.str "")])
        SfOutcome.authFail DbWorld.connectFail =
      (⟨⟨400, [("error", PyVal.str "Missing 'od_id' in request body")]⟩,
        false, Option.none⟩, DbWorld.connectFail) :=
  ⟨rfl, rfl,
    (sync_C10_falsy_od_id_rejected [("od_id", PyVal.str "")] (PyVal.str "")
      SfOutcome.authFail DbWorld.connectFail rfl rfl).1⟩

/-- Shared reduction: on a body with a truthy `od_id`, an upstream query
returning a truthy first record, and a healthy database, the endpoint runs
the UPDATE and answers 200 or 404 according to the number of matching rows,
leaving the table rewritten row-wise by `updRow`. -/
theorem sync_healthy_run (data : List (String × PyVal)) (n : Nat)
    (rec : PyVal) (rest : List PyVal) (t : List Row) (now : Nat)
    (hod : (jsonGet data "od_id").truthy = true) (hn : 0 < n)
    (hrec : rec.truthy = true) :
    sync_record_endpoint (ReqBody.json data) (SfOutcome.queryOk n (rec :: rest))
        (DbWorld.healthy t now) =
      (if (t.filter (fun r => sqlMatch (jsonGet data "od_id") r.od_id)).length > 0 then
        (⟨⟨200,
           [("message", PyVal.str
               ("Successfully synchronized data for ID " ++ (jsonGet data "od_id").fstr)),
            ("salesforce_data_retrieved", PyVal.bool true),
            ("postgres_rows_updated", PyVal.int
              ((t.filter (fun r => sqlMatch (jsonGet data "od_id") r.od_id)).length))]⟩,
          true,
          some ⟨true, true, some (values_to_update (jsonGet data "od_id") rec),
            true, false, true,
            some ((t.filter (fun r => sqlMatch (jsonGet data "od_id") r.od_id)).length)⟩⟩,
         DbWorld.healthy
           (t.map (updRow (values_to_update (jsonGet data "od_id") rec) now)) now)
      else
        (⟨⟨404,
           [("message", PyVal.str
               ("Data retrieved from Salesforce for ID " ++ (jsonGet data "od_id").fstr ++
                ", but no matching record found in PostgreSQL to update.")),
            ("salesforce_data_retrieved", PyVal.bool true),
            ("postgres_rows_updated", PyVal.int 0)]⟩,
          true,
          some ⟨true, true, some (values_to_update (jsonGet data "od_id") rec),
            true, false, true,
            some ((t.filter (fun r => sqlMatch (jsonGet data "od_id") r.od_id)).length)⟩⟩,
         DbWorld.healthy
           (t.map (updRow (values_to_update (jsonGet data "od_id") rec) now)) now)) := by
  simp only [sync_record_endpoint, fetch_salesforce_data, update_postgres_record,
    runUpdate, hod, hn, hrec, Bool.not_true, Bool.false_eq_true, if_false,
    gt_iff_lt, if_pos hn]
  simp [values_to_update, hrec, hod, hn]

/-- C2: when the nested job and candidate relations of the fetched record
are absent or null (falsy under the source's `if sf_data.get(rel)` guard),
the mapper yields null for all five dependent outputs — `job_id`,
`candidate_id`, `account_id`, `resume_txt` (resume text) and `firstname` —
the mapping being a total function, no error is raised; and on a healthy
database the endpoint still reaches `cur.execute`, passing exactly those
parameters to the UPDATE. -/
theorem sync_C2_missing_relations_map_to_null (data : List (String × PyVal))
    (n : Nat) (rec : PyVal) (rest : List PyVal) (t : List Row) (now : Nat)
    (hod : (jsonGet data "od_id").truthy = true) (hn : 0 < n)
    (hrec : rec.truthy = true)
    (hjob : (rec.get "TR1__Job__r").truthy = false)
    (hcand : (rec.get "TR1__Candidate__r").truthy = false) :
    (values_to_update (jsonGet data "od_id") rec).job_id = PyVal.none ∧
    (values_to_update (jsonGet data "od_id") rec).candidate_id = PyVal.none ∧
    (values_to_update (jsonGet data "od_id") rec).account_id = PyVal.none ∧
    (values_to_update (jsonGet data "od_id") rec).resume_txt = PyVal.none ∧
    (values_to_update (jsonGet data "od_id") rec).firstname = PyVal.none ∧
    ((sync_record_endpoint (ReqBody.json data) (SfOutcome.queryOk n (rec :: rest))
        (DbWorld.healthy t now)).1.db).map (fun tr => (tr.executeCalled, tr.execParams)) =
      some (true, some (values_to_update (jsonGet data "od_id") rec)) := by
  refine ⟨?_, ?_, ?_, ?_, ?_, ?_⟩
  · simp [values_to_update, hjob]
  · simp [values_to_update, hcand]
  · simp [values_to_update, hcand]
  · simp [values_to_update, hcand]
  · simp [values_to_update, hcand]
  · rw [sync_healthy_run data n rec rest t now hod hn hrec]
    by_cases hc : (t.filter (fun r => sqlMatch (jsonGet data "od_id") r.od_id)).length > 0
    · rw [if_pos hc]
      rfl
    · rw [if_neg hc]
      rfl

/-- Witness for C2: a record whose job relation is null and whose candidate
relation is missing entirely. -/
theorem sync_C2_missing_relations_map_to_null_witness :
    (jsonGet [("od_id", PyVal.str "a0B1")] "od_id").truthy = true ∧
    (0:Nat) < 1 ∧
    (PyVal.dict [("Id", PyVal.str "a0B1"), ("TR1__Job__r", PyVal.none)]).truthy = true ∧
    ((PyVal.dict [("Id", PyVal.str "a0B1"), ("TR1__Job__r", PyVal.none)]).get
      "TR1__Job__r").truthy = false ∧
    ((PyVal.dict [("Id", PyVal.str "a0B1"), ("TR1__Job__r", PyVal.none)]).get
      "TR1__Candidate__r").truthy = false ∧
    (values_to_update (jsonGet [("od_id", PyVal.str "a0B1")] "od_id")
      (PyVal.dict [("Id", PyVal.str "a0B1"), ("TR1__Job__r", PyVal.none)])).job_id =
      PyVal.none :=
  ⟨rfl, Nat.one_pos, rfl, rfl, rfl,
    (sync_C2_missing_relations_map_to_null [("od_id", PyVal.str "a0B1")] 1
      (PyVal.dict [("Id", PyVal.str "a0B1"), ("TR1__Job__r", PyVal.none)]) [] [] 0
      rfl Nat.one_pos rfl rfl rfl).1⟩

/-- C5: an external ID found upstream (truthy first record) whose UPDATE
matches zero rows of `od_data` is answered 404, with
`salesforce_data_retrieved: true` and `postgres_rows_updated: 0` in the JSON
body. -/
theorem sync_C5_found_upstream_missing_locally (data : List (String × PyVal))
    (n : Nat) (rec : PyVal) (rest : List PyVal) (t : List Row) (now : Nat)
    (hod : (jsonGet data "od_id").truthy = true) (hn : 0 < n)
    (hrec : rec.truthy = true)
    (hcnt : (t.filter (fun r => sqlMatch (jsonGet data "od_id") r.od_id)).length = 0) :
    (sync_record_endpoint (ReqBody.json data) (SfOutcome.queryOk n (rec :: rest))
        (DbWorld.healthy t now)).1.response.status = 404 ∧
    bodyLookup (sync_record_endpoint (ReqBody.json data)
        (SfOutcome.queryOk n (rec :: rest))
        (DbWorld.healthy t now)).1.response "salesforce_data_retrieved" =
      some (PyVal.bool true) ∧
    bodyLookup (sync_record_endpoint (ReqBody.json data)
        (SfOutcome.queryOk n (rec :: rest))
        (DbWorld.healthy t now)).1.response "postgres_rows_updated" =
      some (PyVal.int 0) := by
  rw [sync_healthy_run data n rec rest t now hod hn hrec, hcnt]
  simp [bodyLookup]

/-- Witness for C5 on an empty local table. -/
theorem sync_C5_found_upstream_missing_locally_witness :
    (jsonGet [("od_id", PyVal.str "a0B1")] "od_id").truthy = true ∧
    (0:Nat) < 1 ∧
    (PyVal.dict [("Id", PyVal.str "a0B1")]).truthy = true ∧
    (([] : List Row).filter (fun r =>
      sqlMatch (jsonGet [("od_id", PyVal.str "a0B1")] "od_id") r.od_id)).length = 0 ∧
    ((sync_record_endpoint (ReqBody.json [("od_id", PyVal.str "a0B1")])
        (SfOutcome.queryOk 1 [PyVal.dict [("Id", PyVal.str "a0B1")]])
        (DbWorld.healthy [] 3)).1.response.status = 404 ∧
     bodyLookup (sync_record_endpoint (ReqBody.json [("od_id", PyVal.str "a0B1")])
        (SfOutcome.queryOk 1 [PyVal.dict [("Id", PyVal.str "a0B1")]])
        (DbWorld.healthy [] 3)).1.response "salesforce_data_retrieved" =
      some (PyVal.bool true) ∧
     bodyLookup (sync_record_endpoint (ReqBody.json [("od_id", PyVal.str "a0B1")])
        (SfOutcome.queryOk 1 [PyVal.dict [("Id", PyVal.str "a0B1")]])
        (DbWorld.healthy [] 3)).1.response "postgres_rows_updated" =
      some (PyVal.int 0)) :=
  ⟨rfl, Nat.one_pos, rfl, rfl,
    sync_C5_found_upstream_missing_locally [("od_id", PyVal.str "a0B1")] 1
      (PyVal.dict [("Id", PyVal.str "a0B1")]) [] [] 3 rfl Nat.one_pos rfl rfl⟩

/-- C6: when the record is found upstream and the UPDATE matches `m > 0`
rows, the endpoint answers 200 and its JSON body carries the success
message, `salesforce_data_retrieved: true` and `postgres_rows_updated: m`. -/
theorem sync_C6_success_response (data : List (String × PyVal))
    (n : Nat) (rec : PyVal) (rest : List PyVal) (t : List Row) (now : Nat)
    (m : Nat)
    (hod : (jsonGet data "od_id").truthy = true) (hn : 0 < n)
    (hrec : rec.truthy = true)
    (hcnt : (t.filter (fun r => sqlMatch (jsonGet data "od_id") r.od_id)).length = m)
    (hm : 0 < m) :
    (sync_record_endpoint (ReqBody.json data) (SfOutcome.queryOk n (rec :: rest))
        (DbWorld.healthy t now)).1.response.status = 200 ∧
    bodyLookup (sync_record_endpoint (ReqBody.json data)
        (SfOutcome.queryOk n (rec :: rest))
        (DbWorld.healthy t now)).1.response "message" =
      some (PyVal.str ("Successfully synchronized data for ID " ++
        (jsonGet data "od_id").fstr)) ∧
    bodyLookup (sync_record_endpoint (ReqBody.json data)
        (SfOutcome.queryOk n (rec :: rest))
        (DbWorld.healthy t now)).1.response "salesforce_data_retrieved" =
      some (PyVal.bool true) ∧
    bodyLookup (sync_record_endpoint (ReqBody.json data)
        (SfOutcome.queryOk n (rec :: rest))
        (DbWorld.healthy t now)).1.response "postgres_rows_updated" =
      some (PyVal.int m) := by
  rw [sync_healthy_run data n rec rest t now hod hn hrec, hcnt, if_pos hm]
  simp [bodyLookup]

/-- Witness for C6 on a one-row table matching the ID. -/
theorem sync_C6_success_response_witness :
    (jsonGet [("od_id", PyVal.str "a0B1")] "od_id").truthy = true ∧
    (0:Nat) < 1 ∧
    (PyVal.dict [("Id", PyVal.str "a0B1")]).truthy = true ∧
    (([⟨"a0B1", PyVal.none, PyVal.none, PyVal.none, PyVal.none, PyVal.none,
        PyVal.none, PyVal.none, PyVal.none, PyVal.none, 0⟩] : List Row).filter
      (fun r => sqlMatch (jsonGet [("od_id", PyVal.str "a0B1")] "od_id")
        r.od_id)).length = 1 ∧
    ((sync_record_endpoint (ReqBody.json [("od_id", PyVal.str "a0B1")])
        (SfOutcome.queryOk 1 [PyVal.dict [("Id", PyVal.str "a0B1")]])
        (DbWorld.healthy [⟨"a0B1", PyVal.none, PyVal.none, PyVal.none, PyVal.none,
          PyVal.none, PyVal.none, PyVal.none, PyVal.none, PyVal.none, 0⟩]
          3)).1.response.status = 200 ∧
     bodyLookup (sync_record_endpoint (ReqBody.json [("od_id", PyVal.str "a0B1")])
        (SfOutcome.queryOk 1 [PyVal.dict [("Id", PyVal.str "a0B1")]])
        (DbWorld.healthy [⟨"a0B1", PyVal.none, PyVal.none, PyVal.none, PyVal.none,
          PyVal.none, PyVal.none, PyVal.none, PyVal.none, PyVal.none, 0⟩]
          3)).1.response "message" =
      some (PyVal.str ("Successfully synchronized data for ID " ++
        (jsonGet [("od_id", PyVal.str "a0B1")] "od_id").fstr)) ∧
     bodyLookup (sync_record_endpoint (ReqBody.json [("od_id", PyVal.str "a0B1")])
        (SfOutcome.queryOk 1 [PyVal.dict [("Id", PyVal.str "a0B1")]])
        (DbWorld.healthy [⟨"a0B1", PyVal.none, PyVal.none, PyVal.none, PyVal.none,
          PyVal.none, PyVal.none, PyVal.none, PyVal.none, PyVal.none, 0⟩]
          3)).1.response "salesforce_data_retrieved" = some (PyVal.bool true) ∧
     bodyLookup (sync_record_endpoint (ReqBody.json [("od_id", PyVal.str "a0B1")])
        (SfOutcome.queryOk 1 [PyVal.dict [("Id", PyVal.str "a0B1")]])
        (DbWorld.healthy [⟨"a0B1", PyVal.none, PyVal.none, PyVal.none, PyVal.none,
          PyVal.none, PyVal.none, PyVal.none, PyVal.none, PyVal.none, 0⟩]
          3)).1.response "postgres_rows_updated" = some (PyVal.int 1)) :=
  ⟨rfl, Nat.one_pos, rfl, rfl,
    sync_C6_success_response [("od_id", PyVal.str "a0B1")] 1
      (PyVal.dict [("Id", PyVal.str "a0B1")]) []
      [⟨"a0B1", PyVal.none, PyVal.none, PyVal.none, PyVal.none, PyVal.none,
        PyVal.none, PyVal.none, PyVal.none, PyVal.none, 0⟩] 3 1
      rfl Nat.one_pos rfl rfl Nat.one_pos⟩

/-- C9: two identical successful sync requests in a row (same body, upstream
record unchanged, no competing writes) both report
`postgres_rows_updated: 1` with status 200, and after the second call the
table agrees with the table after the first call on `od_id` and all nine
mapped columns of every row — only `updated_at` (set to the second request's
`CURRENT_TIMESTAMP`) differs. -/
theorem sync_C9_idempotent (data : List (String × PyVal)) (n : Nat)
    (rec : PyVal) (rest : List PyVal) (t : List Row) (now1 now2 : Nat)
    (hod : (jsonGet data "od_id").truthy = true) (hn : 0 < n)
    (hrec : rec.truthy = true)
    (hcnt : (t.filter (fun r => sqlMatch (jsonGet data "od_id") r.od_id)).length = 1) :
    (sync_record_endpoint (ReqBody.json data) (SfOutcome.queryOk n (rec :: rest))
        (DbWorld.healthy t now1)).1.response.status = 200 ∧
    bodyLookup (sync_record_endpoint (ReqBody.json data)
        (SfOutcome.queryOk n (rec :: rest))
        (DbWorld.healthy t now1)).1.response "postgres_rows_updated" =
      some (PyVal.int 1) ∧
    (sync_record_endpoint (ReqBody.json data) (SfOutcome.queryOk n (rec :: rest))
        (DbWorld.healthy
          ((sync_record_endpoint (ReqBody.json data) (SfOutcome.queryOk n (rec :: rest))
              (DbWorld.healthy t now1)).2.table)
          now2)).1.response.status = 200 ∧
    bodyLookup (sync_record_endpoint (ReqBody.json data)
        (SfOutcome.queryOk n (rec :: rest))
        (DbWorld.healthy
          ((sync_record_endpoint (ReqBody.json data) (SfOutcome.queryOk n (rec :: rest))
              (DbWorld.healthy t now1)).2.table)
          now2)).1.response "postgres_rows_updated" = some (PyVal.int 1) ∧
    ((sync_record_endpoint (ReqBody.json data) (SfOutcome.queryOk n (rec :: rest))
        (DbWorld.healthy
          ((sync_record_endpoint (ReqBody.json data) (SfOutcome.queryOk n (rec :: rest))
              (DbWorld.healthy t now1)).2.table)
          now2)).2.table).map (fun r => (r.od_id, r.dataCols)) =
      ((sync_record_endpoint (ReqBody.json data) (SfOutcome.queryOk n (rec :: rest))
          (DbWorld.healthy t now1)).2.table).map (fun r => (r.od_id, r.dataCols)) := by
  have e1 := sync_healthy_run data n rec rest t now1 hod hn hrec
  rw [hcnt, if_pos Nat.one_pos] at e1
  have hcnt2 : ((t.map (updRow (values_to_update (jsonGet data "od_id") rec) now1)).filter
      (fun r => sqlMatch (jsonGet data "od_id") r.od_id)).length = 1 := by
    rw [runUpdate_match_count]
    exact hcnt
  have e2 := sync_healthy_run data n rec rest
    (t.map (updRow (values_to_update (jsonGet data "od_id") rec) now1)) now2 hod hn hrec
  rw [hcnt2, if_pos Nat.one_pos] at e2
  rw [e1]
  simp only [DbWorld.table]
  rw [e2]
  refine ⟨by simp [bodyLookup], by simp [bodyLookup], by simp [bodyLookup],
    by simp [bodyLookup], ?_⟩
  simp only [DbWorld.table]
  exact runUpdate_twice_dataCols t (values_to_update (jsonGet data "od_id") rec) now1 now2

/-- Witness for C9: a one-row table matching the ID, synced twice. -/
theorem sync_C9_idempotent_witness :
    (jsonGet [("od_id", PyVal.str "a0B1")] "od_id").truthy = true ∧
    (0:Nat) < 1 ∧
    (PyVal.dict [("Id", PyVal.str "a0B1")]).truthy = true ∧
    (([⟨"a0B1", PyVal.none, PyVal.none, PyVal.none, PyVal.none, PyVal.none,
        PyVal.none, PyVal.none, PyVal.none, PyVal.none, 0⟩] : List Row).filter
      (fun r => sqlMatch (jsonGet [("od_id", PyVal.str "a0B1")] "od_id")
        r.od_id)).length = 1 ∧
    ((sync_record_endpoint (ReqBody.json [("od_id", PyVal.str "a0B1")])
        (SfOutcome.queryOk 1 [PyVal.dict [("Id", PyVal.str "a0B1")]])
        (DbWorld.healthy [⟨"a0B1", PyVal.none, PyVal.none, PyVal.none, PyVal.none,
          PyVal.none, PyVal.none, PyVal.none, PyVal.none, PyVal.none, 0⟩]
          5)).1.response.status = 200 ∧
     ((sync_record_endpoint (ReqBody.json [("od_id", PyVal.str "a0B1")])
        (SfOutcome.queryOk 1 [PyVal.dict [("Id", PyVal.str "a0B1")]])
        (DbWorld.healthy
          ((sync_record_endpoint (ReqBody.json [("od_id", PyVal.str "a0B1")])
              (SfOutcome.queryOk 1 [PyVal.dict [("Id", PyVal.str "a0B1")]])
              (DbWorld.healthy [⟨"a0B1", PyVal.none, PyVal.none, PyVal.none,
                PyVal.none, PyVal.none, PyVal.none, PyVal.none, PyVal.none,
                PyVal.none, 0⟩] 5)).2.table)
          9)).2.table).map (fun r => (r.od_id, r.dataCols)) =
      ((sync_record_endpoint (ReqBody.json [("od_id", PyVal.str "a0B1")])
          (SfOutcome.queryOk 1 [PyVal.dict [("Id", PyVal.str "a0B1")]])
          (DbWorld.healthy [⟨"a0B1", PyVal.none, PyVal.none, PyVal.none, PyVal.none,
            PyVal.none, PyVal.none, PyVal.none, PyVal.none, PyVal.none, 0⟩]
            5)).2.table).map (fun r => (r.od_id, r.dataCols))) :=
  ⟨rfl, Nat.one_pos, rfl, rfl,
    (sync_C9_idempotent [("od_id", PyVal.str "a0B1")] 1
      (PyVal.dict [("Id", PyVal.str "a0B1")]) []
      [⟨"a0B1", PyVal.none, PyVal.none, PyVal.none, PyVal.none, PyVal.none,
        PyVal.none, PyVal.none, PyVal.none, PyVal.none, 0⟩] 5 9
      rfl Nat.one_pos rfl rfl).1,
    (sync_C9_idempotent [("od_id", PyVal.str "a0B1")] 1
      (PyVal.dict [("Id", PyVal.str "a0B1")]) []
      [⟨"a0B1", PyVal.none, PyVal.none, PyVal.none, PyVal.none, PyVal.none,
        PyVal.none, PyVal.none, PyVal.none, PyVal.none, 0⟩] 5 9
      rfl Nat.one_pos rfl rfl).2.2.2.2⟩
